import Mathlib

/-!
Shallow embedding of `src/bindings/python/setup.py` from jceel/libpersist.

The script reads and mutates the process environment, builds compile- and
link-flag lists (with `os.path.expandvars` applied to the conditional ones),
and calls `setup(...)` declaring a single Cython extension module.

The process environment is modelled as a partial map `String → Option String`
(`none` = variable absent).  `os.path.expandvars` is modelled after CPython's
`posixpath.expandvars`: occurrences of `$name` and `$\x7bname\x7d` are replaced
by the variable's value when the variable is set, and left verbatim when it is
not; substituted values are not rescanned; a `$` that is not followed by a word
character or a braced name, and a brace group with no closing brace, are copied
through while scanning continues.
-/

namespace SetupPy

/-- A process environment: `none` means the variable is not set. -/
def Env : Type := String → Option String

/-- `os.environ[k] = v` : overwrite the entry for `k`. -/
def setItem (env : Env) (k v : String) : Env :=
  fun q => if q = k then some v else env q

/-- `os.environ.setdefault(k, v)` : set `k` to `v` only when `k` is absent. -/
def setdefault (env : Env) (k v : String) : Env :=
  fun q => if q = k then some ((env k).getD v) else env q

/-- The environment after the script's two mutations:
`os.environ['CC'] = 'clang'` followed by `os.environ.setdefault('DESTDIR', '/')`. -/
def scriptEnv (env : Env) : Env :=
  setdefault (setItem env "CC" "clang") "DESTDIR" "/"

/-- Python's `\w` under `re.ASCII`: ASCII letters, digits and underscore. -/
def isWordChar (c : Char) : Bool :=
  c.isAlphanum || c == '_'

/-- Core scan of `posixpath.expandvars`, fuelled (each step consumes at least
one character, so fuel = length of the input suffices). -/
def expandAuxF (env : Env) : Nat → List Char → List Char
  | 0, l => l
  | _ + 1, [] => []
  | fuel + 1, c :: cs =>
    if c = '$' then
      match cs with
      | [] => ['$']
      | d :: cs2 =>
        if d = '{' then
          match cs2.dropWhile (fun x => x != '}') with
          | '}' :: rest =>
            match env (String.mk (cs2.takeWhile (fun x => x != '}'))) with
            | some v => v.data ++ expandAuxF env fuel rest
            | none =>
                '$' :: '{' ::
                  (cs2.takeWhile (fun x => x != '}') ++ '}' :: expandAuxF env fuel rest)
          | _ => '$' :: '{' :: expandAuxF env fuel cs2
        else if isWordChar d then
          match env (String.mk ((d :: cs2).takeWhile isWordChar)) with
          | some v => v.data ++ expandAuxF env fuel ((d :: cs2).dropWhile isWordChar)
          | none =>
              '$' :: ((d :: cs2).takeWhile isWordChar
                ++ expandAuxF env fuel ((d :: cs2).dropWhile isWordChar))
        else '$' :: expandAuxF env fuel cs
    else c :: expandAuxF env fuel cs

/-- `os.path.expandvars`. -/
def expandvars (env : Env) (s : String) : String :=
  String.mk (expandAuxF env (s.data.length + 1) s.data)

/-- `cflags = ['-fblocks', '-Wno-sometimes-uninitialized']` (line 38). -/
def baseCflags : List String :=
  ["-fblocks", "-Wno-sometimes-uninitialized"]

/-- `ldflags = ['-g', '-lpersist', '-lrpc']` (line 39). -/
def baseLdflags : List String :=
  ["-g", "-lpersist", "-lrpc"]

/-- The compile-flag list after the `'CMAKE_SOURCE_DIR' in os.environ`
branch (lines 42-46).  The branch tests and expands against the environment
as mutated by the script's first two statements. -/
def cflags (env : Env) : List String :=
  let e := scriptEnv env
  if (e "CMAKE_SOURCE_DIR").isSome then
    baseCflags ++
      [expandvars e "-I${CMAKE_SOURCE_DIR}/include",
       expandvars e "-I../../include/"]
  else baseCflags

/-- The link-flag list after the `'CMAKE_SOURCE_DIR' in os.environ`
branch (lines 42, 47-51). -/
def ldflags (env : Env) : List String :=
  let e := scriptEnv env
  if (e "CMAKE_SOURCE_DIR").isSome then
    baseLdflags ++
      [expandvars e "-L../..",
       expandvars e "-Wl,-rpath",
       expandvars e "-Wl,${CMAKE_PREFIX}/lib"]
  else baseLdflags

/-- A `Cython.Distutils.extension.Extension(...)` declaration. -/
structure Extension where
  name : String
  sources : List String
  extra_compile_args : List String
  extra_link_args : List String
deriving Repr, DecidableEq

/-- The keyword arguments of the `setup(...)` call (lines 54-68). -/
structure SetupArgs where
  name : String
  version : String
  packages : List String
  package_data : List (String × List String)
  cmdclass : List String
  ext_modules : List Extension
deriving Repr, DecidableEq

/-- The `setup(...)` call made by the script in environment `env`. -/
def setupArgs (env : Env) : SetupArgs :=
  { name := "persist"
    version := "1.0"
    packages := [""]
    package_data := [("", ["*.html", "*.c", "persist.pxd"])]
    cmdclass := ["build_ext"]
    ext_modules :=
      [{ name := "persist"
         sources := ["persist.pyx"]
         extra_compile_args := cflags env
         extra_link_args := ldflags env }] }

/-! ### Helper lemmas -/

lemma mk_append (a b : List Char) :
    String.mk a ++ String.mk b = String.mk (a ++ b) := rfl

lemma expandvars_srcdir (env : Env) (s : String)
    (h : env "CMAKE_SOURCE_DIR" = some s) :
    expandvars env "-I${CMAKE_SOURCE_DIR}/include" = "-I" ++ s ++ "/include" := by
  obtain ⟨l⟩ := s
  simp [expandvars, expandAuxF, h]
  rw [show ("-I" : String) = String.mk ['-', 'I'] from rfl,
      show ("/include" : String) = String.mk ['/', 'i', 'n', 'c', 'l', 'u', 'd', 'e'] from rfl,
      mk_append, mk_append]
  simp

lemma expandvarsPref (env : Env) :
    expandvars env "-Wl,${CMAKE_PREFIX}/lib" =
      "-Wl," ++ ((env "CMAKE_PREFIX").getD "${CMAKE_PREFIX}") ++ "/lib" := by
  cases h : env "CMAKE_PREFIX" with
  | none => simp [expandvars, expandAuxF, h]
  | some p =>
      obtain ⟨l⟩ := p
      simp [expandvars, expandAuxF, h]
      rw [show ("-Wl," : String) = String.mk ['-', 'W', 'l', ','] from rfl,
          show ("/lib" : String) = String.mk ['/', 'l', 'i', 'b'] from rfl,
          mk_append, mk_append]
      simp

lemma scriptEnv_frame (env : Env) (k : String)
    (hcc : k ≠ "CC") (hdd : k ≠ "DESTDIR") :
    scriptEnv env k = env k := by
  simp [scriptEnv, setdefault, setItem, hcc, hdd]

lemma scriptEnv_srcdir (env : Env) :
    scriptEnv env "CMAKE_SOURCE_DIR" = env "CMAKE_SOURCE_DIR" :=
  scriptEnv_frame env _ (by decide) (by decide)

lemma scriptEnvPref (env : Env) :
    scriptEnv env "CMAKE_PREFIX" = env "CMAKE_PREFIX" :=
  scriptEnv_frame env _ (by decide) (by decide)

lemma cflags_of_none (env : Env) (h : env "CMAKE_SOURCE_DIR" = none) :
    cflags env = baseCflags := by
  simp [cflags, scriptEnv_srcdir, h]

lemma cflags_of_some (env : Env) (s : String)
    (h : env "CMAKE_SOURCE_DIR" = some s) :
    cflags env = baseCflags ++ ["-I" ++ s ++ "/include", "-I../../include/"] := by
  have h' : scriptEnv env "CMAKE_SOURCE_DIR" = some s := by rw [scriptEnv_srcdir, h]
  simp [cflags, h', expandvars_srcdir _ _ h',
        show expandvars (scriptEnv env) "-I../../include/" = "-I../../include/" from rfl]

lemma ldflags_of_none (env : Env) (h : env "CMAKE_SOURCE_DIR" = none) :
    ldflags env = baseLdflags := by
  simp [ldflags, scriptEnv_srcdir, h]

lemma ldflags_of_some (env : Env) (s : String)
    (h : env "CMAKE_SOURCE_DIR" = some s) :
    ldflags env = baseLdflags ++
      ["-L../..", "-Wl,-rpath",
       "-Wl," ++ ((env "CMAKE_PREFIX").getD "${CMAKE_PREFIX}") ++ "/lib"] := by
  have h' : scriptEnv env "CMAKE_SOURCE_DIR" = some s := by rw [scriptEnv_srcdir, h]
  have hp := expandvarsPref (scriptEnv env)
  rw [scriptEnvPref] at hp
  simp [ldflags, h', hp,
        show expandvars (scriptEnv env) "-L../.." = "-L../.." from rfl,
        show expandvars (scriptEnv env) "-Wl,-rpath" = "-Wl,-rpath" from rfl]

/-! ### Claim theorems -/

/-- C1: for every environment in which CMAKE_SOURCE_DIR is not set, the
compile-flag list passed to the extension is exactly
`['-fblocks', '-Wno-sometimes-uninitialized']` and the link-flag list is
exactly `['-g', '-lpersist', '-lrpc']`, in that order, regardless of the
values of CMAKE_PREFIX and DESTDIR. -/
theorem claim_C1 (env : Env) (h : env "CMAKE_SOURCE_DIR" = none) :
    cflags env = ["-fblocks", "-Wno-sometimes-uninitialized"] ∧
    ldflags env = ["-g", "-lpersist", "-lrpc"] :=
  ⟨cflags_of_none env h, ldflags_of_none env h⟩

/-- Environment for the C1 witness: CMAKE_SOURCE_DIR unset, CMAKE_PREFIX and
DESTDIR set. -/
def envC1 : Env :=
  fun k => if k = "CMAKE_PREFIX" then some "/opt" else
           if k = "DESTDIR" then some "/stage" else none

/-- Witness for C1 at a concrete environment. -/
theorem claim_C1_witness :
    envC1 "CMAKE_SOURCE_DIR" = none ∧
    (cflags envC1 = ["-fblocks", "-Wno-sometimes-uninitialized"] ∧
     ldflags envC1 = ["-g", "-lpersist", "-lrpc"]) :=
  ⟨rfl, claim_C1 envC1 rfl⟩

/-- C2: for every environment in which CMAKE_SOURCE_DIR is set, the
compile-flag list is the base list extended with `-I<CMAKE_SOURCE_DIR>/include`
and `-I../../include/`, and the link-flag list is the base list extended with
`-L../..`, `-Wl,-rpath` and `-Wl,<CMAKE_PREFIX>/lib`, in that order, and no
other flags are added.  `<CMAKE_PREFIX>` stands for the variable's value when
it is set and for the verbatim reference text when it is not (the reference
passes through `os.path.expandvars` unchanged in that case, see C8). -/
theorem claim_C2 (env : Env) (s : String) (h : env "CMAKE_SOURCE_DIR" = some s) :
    cflags env = ["-fblocks", "-Wno-sometimes-uninitialized",
                  "-I" ++ s ++ "/include", "-I../../include/"] ∧
    ldflags env = ["-g", "-lpersist", "-lrpc", "-L../..", "-Wl,-rpath",
                   "-Wl," ++ ((env "CMAKE_PREFIX").getD "${CMAKE_PREFIX}") ++ "/lib"] :=
  ⟨cflags_of_some env s h, ldflags_of_some env s h⟩

/-- Environment for the C2 witness: both CMAKE_SOURCE_DIR and CMAKE_PREFIX set. -/
def envC2 : Env :=
  fun k => if k = "CMAKE_SOURCE_DIR" then some "/src/libpersist" else
           if k = "CMAKE_PREFIX" then some "/usr/local" else none

/-- Witness for C2 at a concrete environment. -/
theorem claim_C2_witness :
    envC2 "CMAKE_SOURCE_DIR" = some "/src/libpersist" ∧
    (cflags envC2 = ["-fblocks", "-Wno-sometimes-uninitialized",
                     "-I" ++ "/src/libpersist" ++ "/include", "-I../../include/"] ∧
     ldflags envC2 = ["-g", "-lpersist", "-lrpc", "-L../..", "-Wl,-rpath",
                      "-Wl," ++ ((envC2 "CMAKE_PREFIX").getD "${CMAKE_PREFIX}") ++ "/lib"]) :=
  ⟨rfl, claim_C2 envC2 "/src/libpersist" rfl⟩

/-- C3: in every environment, the setup call declares exactly one extension
module, its name is `persist`, and its source list contains exactly the one
interface file `persist.pyx`. -/
theorem claim_C3 (env : Env) :
    (setupArgs env).ext_modules.length = 1 ∧
    (setupArgs env).ext_modules.map Extension.name = ["persist"] ∧
    (setupArgs env).ext_modules.map Extension.sources = [["persist.pyx"]] :=
  ⟨rfl, rfl, rfl⟩

/-- C4: in every environment, the script sets CC to `clang`, overwriting any
value CC had before the script ran. -/
theorem claim_C4 (env : Env) : scriptEnv env "CC" = some "clang" := rfl

/-- C5: in every environment, whether or not CMAKE_SOURCE_DIR and CMAKE_PREFIX
are set, the link-flag list contains both `-lpersist` and `-lrpc`. -/
theorem claim_C5 (env : Env) :
    "-lpersist" ∈ ldflags env ∧ "-lrpc" ∈ ldflags env := by
  cases h : env "CMAKE_SOURCE_DIR" with
  | none => rw [ldflags_of_none env h]; exact ⟨by simp [baseLdflags], by simp [baseLdflags]⟩
  | some s => rw [ldflags_of_some env s h]; exact ⟨by simp [baseLdflags], by simp [baseLdflags]⟩

/-- C6: after the script's environment-setup step DESTDIR is set: it equals
`/` when DESTDIR was unset before the script ran, and keeps its prior value
when it was already set. -/
theorem claim_C6 (env : Env) :
    (env "DESTDIR" = none → scriptEnv env "DESTDIR" = some "/") ∧
    (∀ v, env "DESTDIR" = some v → scriptEnv env "DESTDIR" = some v) := by
  constructor
  · intro h; simp [scriptEnv, setdefault, setItem, h]
  · intro v h; simp [scriptEnv, setdefault, setItem, h]

/-- Environment for the C6 witness with DESTDIR unset. -/
def envC6a : Env := fun _ => none

/-- Environment for the C6 witness with DESTDIR already set. -/
def envC6b : Env := fun k => if k = "DESTDIR" then some "/stage" else none

/-- Witness for C6: both the defaulting case and the keep-prior-value case at
concrete environments. -/
theorem claim_C6_witness :
    scriptEnv envC6a "DESTDIR" = some "/" ∧
    scriptEnv envC6b "DESTDIR" = some "/stage" :=
  ⟨(claim_C6 envC6a).1 rfl, (claim_C6 envC6b).2 "/stage" rfl⟩

/-- C7: two environments differing only in CMAKE_PREFIX produce identical
compile-flag lists, and link-flag lists that differ at most in the final
entry (the `-Wl,<CMAKE_PREFIX>/lib` flag); when CMAKE_SOURCE_DIR is unset the
link-flag lists are fully identical, so CMAKE_PREFIX has no effect at all. -/
theorem claim_C7 (e1 e2 : Env)
    (h : ∀ k, k ≠ "CMAKE_PREFIX" → e1 k = e2 k) :
    cflags e1 = cflags e2 ∧
    (ldflags e1).dropLast = (ldflags e2).dropLast ∧
    (ldflags e1).length = (ldflags e2).length ∧
    (e1 "CMAKE_SOURCE_DIR" = none → ldflags e1 = ldflags e2) := by
  have hs : e1 "CMAKE_SOURCE_DIR" = e2 "CMAKE_SOURCE_DIR" := h _ (by decide)
  cases h1 : e1 "CMAKE_SOURCE_DIR" with
  | none =>
      have h2 : e2 "CMAKE_SOURCE_DIR" = none := by rw [← hs, h1]
      rw [cflags_of_none e1 h1, cflags_of_none e2 h2,
          ldflags_of_none e1 h1, ldflags_of_none e2 h2]
      exact ⟨rfl, rfl, rfl, fun _ => rfl⟩
  | some s =>
      have h2 : e2 "CMAKE_SOURCE_DIR" = some s := by rw [← hs, h1]
      rw [cflags_of_some e1 s h1, cflags_of_some e2 s h2,
          ldflags_of_some e1 s h1, ldflags_of_some e2 s h2]
      exact ⟨rfl, rfl, rfl, fun hc => by cases hc⟩

/-- Environment for the C7 witness with CMAKE_PREFIX set. -/
def envC7a : Env :=
  fun k => if k = "CMAKE_SOURCE_DIR" then some "/src" else
           if k = "CMAKE_PREFIX" then some "/usr" else none

/-- Environment for the C7 witness with CMAKE_PREFIX unset, otherwise equal to
`envC7a`. -/
def envC7b : Env :=
  fun k => if k = "CMAKE_SOURCE_DIR" then some "/src" else none

/-- Witness for C7 at two concrete environments differing only in
CMAKE_PREFIX. -/
theorem claim_C7_witness :
    cflags envC7a = cflags envC7b ∧
    (ldflags envC7a).dropLast = (ldflags envC7b).dropLast ∧
    (ldflags envC7a).length = (ldflags envC7b).length ∧
    (envC7a "CMAKE_SOURCE_DIR" = none → ldflags envC7a = ldflags envC7b) :=
  claim_C7 envC7a envC7b (fun k hk => by simp [envC7a, envC7b, hk])

/-- C8: if CMAKE_SOURCE_DIR is set but CMAKE_PREFIX is unset, the final link
flag is the literal, unexpanded string `-Wl,${CMAKE_PREFIX}/lib`: the variable
reference is passed through verbatim rather than omitted or emptied. -/
theorem claim_C8 (env : Env) (s : String)
    (h1 : env "CMAKE_SOURCE_DIR" = some s) (h2 : env "CMAKE_PREFIX" = none) :
    (ldflags env).getLast? = some "-Wl,${CMAKE_PREFIX}/lib" := by
  rw [ldflags_of_some env s h1, h2]
  rfl

/-- Environment for the C8 witness: CMAKE_SOURCE_DIR set, CMAKE_PREFIX unset. -/
def envC8 : Env := fun k => if k = "CMAKE_SOURCE_DIR" then some "/src" else none

/-- Witness for C8 at a concrete environment. -/
theorem claim_C8_witness :
    envC8 "CMAKE_SOURCE_DIR" = some "/src" ∧ envC8 "CMAKE_PREFIX" = none ∧
    (ldflags envC8).getLast? = some "-Wl,${CMAKE_PREFIX}/lib" :=
  ⟨rfl, rfl, claim_C8 envC8 "/src" rfl rfl⟩

/-- C9: the conditional flags are triggered by the mere presence of the
CMAKE_SOURCE_DIR key: setting it to the empty string still adds all five extra
compile and link flags (the include flag degenerating to `-I/include`). -/
theorem claim_C9 (env : Env) (h : env "CMAKE_SOURCE_DIR" = some "") :
    cflags env = ["-fblocks", "-Wno-sometimes-uninitialized",
                  "-I/include", "-I../../include/"] ∧
    ldflags env = ["-g", "-lpersist", "-lrpc", "-L../..", "-Wl,-rpath",
                   "-Wl," ++ ((env "CMAKE_PREFIX").getD "${CMAKE_PREFIX}") ++ "/lib"] :=
  ⟨cflags_of_some env "" h, ldflags_of_some env "" h⟩

/-- Environment for the C9 witness: CMAKE_SOURCE_DIR set to the empty string. -/
def envC9 : Env := fun k => if k = "CMAKE_SOURCE_DIR" then some "" else none

/-- Witness for C9 at a concrete environment. -/
theorem claim_C9_witness :
    envC9 "CMAKE_SOURCE_DIR" = some "" ∧
    (cflags envC9 = ["-fblocks", "-Wno-sometimes-uninitialized",
                     "-I/include", "-I../../include/"] ∧
     ldflags envC9 = ["-g", "-lpersist", "-lrpc", "-L../..", "-Wl,-rpath",
                      "-Wl," ++ ((envC9 "CMAKE_PREFIX").getD "${CMAKE_PREFIX}") ++ "/lib"]) :=
  ⟨rfl, claim_C9 envC9 rfl⟩

/-- C10: the script's configuration step modifies at most the CC and DESTDIR
entries of the environment: every other variable, including CMAKE_SOURCE_DIR
and CMAKE_PREFIX, keeps its prior value. -/
theorem claim_C10 (env : Env) (k : String)
    (h1 : k ≠ "CC") (h2 : k ≠ "DESTDIR") :
    scriptEnv env k = env k :=
  scriptEnv_frame env k h1 h2

/-- Environment for the C10 witness. -/
def envC10 : Env :=
  fun k => if k = "CC" then some "gcc" else
           if k = "CMAKE_PREFIX" then some "/usr" else none

/-- Witness for C10 at a concrete environment and key. -/
theorem claim_C10_witness :
    ("CMAKE_PREFIX" : String) ≠ "CC" ∧ ("CMAKE_PREFIX" : String) ≠ "DESTDIR" ∧
    scriptEnv envC10 "CMAKE_PREFIX" = envC10 "CMAKE_PREFIX" :=
  ⟨by decide, by decide, claim_C10 envC10 "CMAKE_PREFIX" (by decide) (by decide)⟩

end SetupPy
